import Mathlib

/-!
Verification of the two-user investment tracker server (Express routes over
an in-memory `MemStorage`).  The model below is a shallow embedding of
`server/routes.ts` (`registerRoutes`) and `server/storage.ts` (`MemStorage`)
in their sales-enabled revision, together with the parts of
`shared/schema.ts` that the route handlers consult.

Modelling conventions:
* UUIDs are replaced by a monotone `nextId` counter on the store (the only
  property the code relies on is freshness).
* Decimal money amounts (`decimal(10,2)` columns, JS number/string values)
  are modelled as exact rationals `Rat`; this is faithful wherever the code
  manipulates integral or two-decimal values exactly and is the idealisation
  under which the numerical claims are stated.
* Percentages are modelled as `Int` (the DB columns are `integer`).
* Calendar dates are carried as opaque `String`s; `new Date(s).getTime()` is
  modelled by an arbitrary parse function `String → Int` where ordering by
  date is at stake.
* JS truthiness of an optional string (`undefined`/`""` are falsy) is
  modelled by `jsTruthy`; `a || b` on such strings by `jsOr`.
-/

namespace V2App

/-- The `users` record (sales-enabled schema: `password` is nullable text). -/
structure User where
  id : Nat
  username : String
  displayName : String
  role : String
  password : Option String
  deriving Repr, DecidableEq

/-- Insert shape for a user (`insertUserSchema` omits `id`). -/
structure InsertUser where
  username : String
  displayName : String
  role : String
  password : Option String
  deriving Repr, DecidableEq

/-- The `investments` record. -/
structure Investment where
  id : Nat
  name : String
  symbol : Option String
  type : String
  initialValue : Rat
  currentValue : Rat
  allePercentage : Int
  aliPercentage : Int
  purchaseDate : String
  createdAt : Nat
  createdBy : String
  deriving Repr, DecidableEq

/-- Insert shape for an investment (`insertInvestmentSchema` omits `id` and
`createdAt`). -/
structure InsertInvestment where
  name : String
  symbol : Option String
  type : String
  initialValue : Rat
  currentValue : Rat
  allePercentage : Int
  aliPercentage : Int
  purchaseDate : String
  createdBy : String
  deriving Repr, DecidableEq

/-- A partial investment update as accepted by
`insertInvestmentSchema.partial().safeParse`: every field optional; a field
that is `none` is absent from the request body.  (`id`/`createdAt` are
omitted by the schema, so no caller can override them through the route.) -/
structure InvestmentPatch where
  name : Option String := none
  symbol : Option (Option String) := none
  type : Option String := none
  initialValue : Option Rat := none
  currentValue : Option Rat := none
  allePercentage : Option Int := none
  aliPercentage : Option Int := none
  purchaseDate : Option String := none
  createdBy : Option String := none
  deriving Repr, DecidableEq

/-- The `transactions` record (append-only audit log). -/
structure Transaction where
  id : Nat
  action : String
  investmentId : Option Nat
  investmentName : String
  amount : Rat
  date : String
  userId : String
  createdAt : Nat
  deriving Repr, DecidableEq

/-- Insert shape for a transaction. -/
structure InsertTransaction where
  action : String
  investmentId : Option Nat
  investmentName : String
  amount : Rat
  date : String
  userId : String
  deriving Repr, DecidableEq

/-- The `sales` record.  Field list from the sale form's default values and
spec section 3 (the sales-enabled `shared/schema.ts` is not among the given
sources). -/
structure Sale where
  id : Nat
  investmentId : Nat
  investmentName : String
  saleAmount : Rat
  salePrice : Rat
  allePercentage : Int
  aliPercentage : Int
  saleDate : String
  createdBy : String
  createdAt : Nat
  deriving Repr, DecidableEq

/-- Insert shape for a sale (`insertSaleSchema` omits `id` and `createdAt`). -/
structure InsertSale where
  investmentId : Nat
  investmentName : String
  saleAmount : Rat
  salePrice : Rat
  allePercentage : Int
  aliPercentage : Int
  saleDate : String
  createdBy : String
  deriving Repr, DecidableEq

/-- The `MemStorage` state: the four entity collections (JS `Map`s in
insertion order) plus the fresh-identifier counter standing in for
`randomUUID`. -/
structure Storage where
  users : List User
  investments : List Investment
  transactions : List Transaction
  sales : List Sale
  nextId : Nat
  deriving Repr, DecidableEq

/-- JS truthiness of an optional string: `undefined` and `""` are falsy. -/
def jsTruthy : Option String → Bool
  | none => false
  | some s => !(s == "")

/-- JS `a || b` where `a` is an optional string and `b` a string. -/
def jsOr (a : Option String) (b : String) : String :=
  match a with
  | none => b
  | some s => if s == "" then b else s

/-! ### MemStorage operations (`server/storage.ts`) -/

/-- `MemStorage.getUserByUsername`. -/
def getUserByUsername (s : Storage) (username : String) : Option User :=
  s.users.find? (fun u => u.username == username)

/-- `MemStorage.createUser`. -/
def createUser (s : Storage) (u : InsertUser) : User × Storage :=
  let user : User :=
    { id := s.nextId, username := u.username, displayName := u.displayName
      role := u.role, password := u.password }
  (user, { s with users := s.users ++ [user], nextId := s.nextId + 1 })

/-- `MemStorage.getAllUsers`. -/
def getAllUsers (s : Storage) : List User :=
  s.users

/-- `MemStorage.authenticateUser`: username lookup; users whose role is
`admin` additionally require a truthy password strictly equal to the stored
one. -/
def authenticateUser (s : Storage) (username : String) (password : Option String) :
    Option User :=
  match getUserByUsername s username with
  | none => none
  | some user =>
    if user.role == "admin" then
      if !(jsTruthy password) then none
      else if user.password == password then some user else none
    else some user

/-- `MemStorage.getInvestment`. -/
def getInvestment (s : Storage) (id : Nat) : Option Investment :=
  s.investments.find? (fun inv => inv.id == id)

/-- `MemStorage.getAllInvestments`. -/
def getAllInvestments (s : Storage) : List Investment :=
  s.investments

/-- `MemStorage.createInvestment`: assigns an id, stamps `createdAt`, stores. -/
def createInvestment (s : Storage) (d : InsertInvestment) (now : Nat) :
    Investment × Storage :=
  let inv : Investment :=
    { id := s.nextId, name := d.name, symbol := d.symbol, type := d.type
      initialValue := d.initialValue, currentValue := d.currentValue
      allePercentage := d.allePercentage, aliPercentage := d.aliPercentage
      purchaseDate := d.purchaseDate, createdAt := now, createdBy := d.createdBy }
  (inv, { s with investments := s.investments ++ [inv], nextId := s.nextId + 1 })

/-- The spread `{ ...existing, ...investment }`: fields present in the patch
override the existing record. -/
def applyPatch (existing : Investment) (p : InvestmentPatch) : Investment :=
  { existing with
    name := p.name.getD existing.name
    symbol := p.symbol.getD existing.symbol
    type := p.type.getD existing.type
    initialValue := p.initialValue.getD existing.initialValue
    currentValue := p.currentValue.getD existing.currentValue
    allePercentage := p.allePercentage.getD existing.allePercentage
    aliPercentage := p.aliPercentage.getD existing.aliPercentage
    purchaseDate := p.purchaseDate.getD existing.purchaseDate
    createdBy := p.createdBy.getD existing.createdBy }

/-- `MemStorage.updateInvestment`: merge the patch into the existing record
(`undefined` if absent); `Map.set` on an existing key keeps its position. -/
def updateInvestment (s : Storage) (id : Nat) (p : InvestmentPatch) :
    Option (Investment × Storage) :=
  match s.investments.find? (fun inv => inv.id == id) with
  | none => none
  | some existing =>
    let updated := applyPatch existing p
    some (updated,
      { s with investments :=
          s.investments.map (fun inv => if inv.id == id then updated else inv) })

/-- `MemStorage.deleteInvestment`: removes the record, returns whether it
existed. -/
def deleteInvestment (s : Storage) (id : Nat) : Bool × Storage :=
  (s.investments.any (fun inv => inv.id == id),
   { s with investments := s.investments.filter (fun inv => !(inv.id == id)) })

/-- `MemStorage.createTransaction`. -/
def createTransaction (s : Storage) (t : InsertTransaction) (now : Nat) :
    Transaction × Storage :=
  let tx : Transaction :=
    { id := s.nextId, action := t.action, investmentId := t.investmentId
      investmentName := t.investmentName, amount := t.amount, date := t.date
      userId := t.userId, createdAt := now }
  (tx, { s with transactions := s.transactions ++ [tx], nextId := s.nextId + 1 })

/-- `MemStorage.getAllTransactions`: all transactions sorted by
`new Date(b.date).getTime() - new Date(a.date).getTime()`, i.e. descending
by parsed date; `parse` stands for `s ↦ new Date(s).getTime()`. -/
def getAllTransactions (parse : String → Int) (s : Storage) : List Transaction :=
  s.transactions.mergeSort (fun a b => decide (parse b.date ≤ parse a.date))

/-- `MemStorage.createSale`. -/
def createSale (s : Storage) (d : InsertSale) (now : Nat) : Sale × Storage :=
  let sale : Sale :=
    { id := s.nextId, investmentId := d.investmentId
      investmentName := d.investmentName, saleAmount := d.saleAmount
      salePrice := d.salePrice, allePercentage := d.allePercentage
      aliPercentage := d.aliPercentage, saleDate := d.saleDate
      createdBy := d.createdBy, createdAt := now }
  (sale, { s with sales := s.sales ++ [sale], nextId := s.nextId + 1 })

/-- `MemStorage.getAllSales`: sorted descending by parsed `saleDate`. -/
def getAllSales (parse : String → Int) (s : Storage) : List Sale :=
  s.sales.mergeSort (fun a b => decide (parse b.saleDate ≤ parse a.saleDate))

/-! ### Schema validation (`shared/schema.ts`) -/

/-- `insertInvestmentSchema`'s refinements: both percentages in `[0, 100]`,
`initialValue` and `currentValue` strictly positive. -/
def validInsertInvestment (r : InsertInvestment) : Bool :=
  decide (0 ≤ r.allePercentage) && decide (r.allePercentage ≤ 100) &&
  decide (0 ≤ r.aliPercentage) && decide (r.aliPercentage ≤ 100) &&
  decide (0 < r.initialValue) && decide (0 < r.currentValue)

/-- `insertInvestmentSchema.partial()`: each supplied field must satisfy its
refinement; absent fields are unchecked. -/
def validPatch (p : InvestmentPatch) : Bool :=
  (match p.allePercentage with
   | none => true
   | some a => decide (0 ≤ a) && decide (a ≤ 100)) &&
  (match p.aliPercentage with
   | none => true
   | some a => decide (0 ≤ a) && decide (a ≤ 100)) &&
  (match p.initialValue with
   | none => true
   | some v => decide (0 < v)) &&
  (match p.currentValue with
   | none => true
   | some v => decide (0 < v))

/-- Modelled from the spec: the sales-enabled `shared/schema.ts` defining
`insertSaleSchema` is not among the given sources; per spec section 3 a Sale
carries `allePercentage (int 0–100)` and `aliPercentage (int 0–100)`, so the
schema gate is modelled as those bounds. -/
def validInsertSale (r : InsertSale) : Bool :=
  decide (0 ≤ r.allePercentage) && decide (r.allePercentage ≤ 100) &&
  decide (0 ≤ r.aliPercentage) && decide (r.aliPercentage ≤ 100)

/-! ### Route handlers (`server/routes.ts`, `registerRoutes`) -/

/-- `POST /api/auth/login`: 400 when the username is missing (falsy), 401
when authentication fails, otherwise 200 with the full user record. -/
def loginRoute (s : Storage) (username password : Option String) :
    Nat × Option User :=
  if !(jsTruthy username) then (400, none)
  else
    match authenticateUser s (username.getD "") password with
    | none => (401, none)
    | some user => (200, some user)

/-- `GET /api/users`: 200 with every stored user record, verbatim. -/
def getUsersRoute (s : Storage) : Nat × List User :=
  (200, getAllUsers s)

/-- `POST /api/investments`: schema validation, then the exact-sum
percentage check, then `createInvestment` followed by one synthesized
`Acquisto` transaction. -/
def postInvestments (s : Storage) (req : InsertInvestment) (now : Nat) :
    Nat × Storage :=
  if !(validInsertInvestment req) then (400, s)
  else if req.allePercentage + req.aliPercentage ≠ 100 then (400, s)
  else
    let (investment, s1) := createInvestment s req now
    let (_, s2) := createTransaction s1
      { action := "Acquisto", investmentId := some investment.id
        investmentName := investment.name, amount := investment.initialValue
        date := investment.purchaseDate, userId := investment.createdBy } now
    (201, s2)

/-- `PUT /api/investments/:id`: partial-schema validation, then
`updateInvestment` (404 when absent), then one synthesized `Modifica`
transaction with the updated current value, dated today. -/
def putInvestment (s : Storage) (id : Nat) (patch : InvestmentPatch)
    (updatedBy : Option String) (today : String) (now : Nat) : Nat × Storage :=
  if !(validPatch patch) then (400, s)
  else
    match updateInvestment s id patch with
    | none => (404, s)
    | some (updated, s1) =>
      let (_, s2) := createTransaction s1
        { action := "Modifica", investmentId := some updated.id
          investmentName := updated.name, amount := updated.currentValue
          date := today, userId := jsOr updatedBy updated.createdBy } now
      (200, s2)

/-- `DELETE /api/investments/:id`: look the investment up first (404 when
absent) to snapshot its name, delete it, then synthesize one `Eliminazione`
transaction with amount 0 dated today. -/
def deleteInvestmentRoute (s : Storage) (id : Nat) (deletedBy : Option String)
    (today : String) (now : Nat) : Nat × Storage :=
  match getInvestment s id with
  | none => (404, s)
  | some investment =>
    let (deleted, s1) := deleteInvestment s id
    if deleted then
      let (_, s2) := createTransaction s1
        { action := "Eliminazione", investmentId := some id
          investmentName := investment.name, amount := 0
          date := today, userId := jsOr deletedBy investment.createdBy } now
      (200, s2)
    else (500, s1)

/-- `POST /api/sales`: schema validation, exact-sum percentage check,
referenced-investment lookup (404 when absent); then the sale is stored, the
investment's `currentValue` is reduced by `saleAmount` via
`updateInvestment`, and one `Vendita` transaction is synthesized.  Note: the
handler performs no comparison of `saleAmount` against `currentValue`. -/
def postSales (s : Storage) (req : InsertSale) (now : Nat) : Nat × Storage :=
  if !(validInsertSale req) then (400, s)
  else if req.allePercentage + req.aliPercentage ≠ 100 then (400, s)
  else
    match getInvestment s req.investmentId with
    | none => (404, s)
    | some investment =>
      let (_, s1) := createSale s req now
      let newCurrentValue := investment.currentValue - req.saleAmount
      let s2 :=
        match updateInvestment s1 req.investmentId
          { currentValue := some newCurrentValue } with
        | none => s1
        | some (_, s') => s'
      let (_, s3) := createTransaction s2
        { action := "Vendita", investmentId := some req.investmentId
          investmentName := investment.name, amount := req.saleAmount
          date := req.saleDate, userId := req.createdBy } now
      (201, s3)

/-! ### Seed data (`MemStorage.initializeDefaultData`) -/

/-- The empty store before seeding. -/
def emptyStorage : Storage :=
  { users := [], investments := [], transactions := [], sales := [], nextId := 1 }

/-- The store after `initializeDefaultData`: the admin `alle` (password
`admin123`), the viewer `ali` (no password), and three sample investments
each followed by its `Acquisto` transaction. -/
def seedStorage : Storage :=
  let (_, s1) := createUser emptyStorage
    { username := "alle", displayName := "Alle", role := "admin"
      password := some "admin123" }
  let (_, s2) := createUser s1
    { username := "ali", displayName := "Ali", role := "viewer", password := none }
  let (i1, s3) := createInvestment s2
    { name := "Vanguard FTSE All-World", symbol := some "VWCE", type := "ETF"
      initialValue := 8000, currentValue := 9200
      allePercentage := 75, aliPercentage := 25
      purchaseDate := "2023-06-15", createdBy := "alle" } 0
  let (_, s4) := createTransaction s3
    { action := "Acquisto", investmentId := some i1.id
      investmentName := "Vanguard FTSE All-World", amount := 8000
      date := "2023-06-15", userId := "alle" } 0
  let (i2, s5) := createInvestment s4
    { name := "Apple Inc.", symbol := some "AAPL", type := "Azioni"
      initialValue := 5000, currentValue := 5800
      allePercentage := 80, aliPercentage := 20
      purchaseDate := "2023-08-20", createdBy := "alle" } 0
  let (_, s6) := createTransaction s5
    { action := "Acquisto", investmentId := some i2.id
      investmentName := "Apple Inc.", amount := 5000
      date := "2023-08-20", userId := "alle" } 0
  let (i3, s7) := createInvestment s6
    { name := "iShares Core MSCI World", symbol := some "IWDA", type := "ETF"
      initialValue := 7000, currentValue := 7589.34
      allePercentage := 70, aliPercentage := 30
      purchaseDate := "2023-09-10", createdBy := "alle" } 0
  let (_, s8) := createTransaction s7
    { action := "Acquisto", investmentId := some i3.id
      investmentName := "iShares Core MSCI World", amount := 7000
      date := "2023-09-10", userId := "alle" } 0
  s8

/-- The seeded admin user. -/
def alleUser : User :=
  { id := 1, username := "alle", displayName := "Alle", role := "admin"
    password := some "admin123" }

/-- The seeded viewer user. -/
def aliUser : User :=
  { id := 2, username := "ali", displayName := "Ali", role := "viewer"
    password := none }

/-! ### Helper lemmas -/

/-- The seeded user list is the admin `alle` followed by the viewer `ali`. -/
theorem seedStorage_users_eq : seedStorage.users = [alleUser, aliUser] := rfl

/-- Replacing the first record matching an id inside the investment list (as
`Map.set` does on an existing key) makes the subsequent lookup return the
replacement, provided the replacement keeps that id. -/
theorem find?_map_update {l : List Investment} {i : Nat} {inv upd : Investment}
    (h : l.find? (fun v => v.id == i) = some inv) (hid : (upd.id == i) = true) :
    (l.map (fun v => if v.id == i then upd else v)).find? (fun v => v.id == i) =
      some upd := by
  induction l with
  | nil => simp at h
  | cons x xs ih =>
    simp only [List.map_cons]
    by_cases hx : (x.id == i) = true
    · rw [if_pos hx]
      exact List.find?_cons_of_pos _ hid
    · rw [if_neg hx, List.find?_cons_of_neg (p := fun v : Investment => v.id == i) _ hx]
      rw [List.find?_cons_of_neg (p := fun v : Investment => v.id == i) _ hx] at h
      exact ih h

/-- A successful `find?` implies a successful `any` on the same predicate. -/
theorem any_of_find? {l : List Investment} {p : Investment → Bool} {x : Investment}
    (h : l.find? p = some x) : l.any p = true := by
  have hmem : x ∈ l := List.mem_of_find?_eq_some h
  have hx : p x = true := List.find?_some h
  exact List.any_eq_true.mpr ⟨x, hmem, hx⟩

/-! ### The claims -/

/-- Store used for the C1 evaluation: a single investment with
`currentValue = 1000`. -/
def c1Inv : Investment :=
  { id := 1, name := "Test ETF", symbol := none, type := "ETF"
    initialValue := 1000, currentValue := 1000
    allePercentage := 60, aliPercentage := 40
    purchaseDate := "2024-01-01", createdAt := 0, createdBy := "alle" }

/-- One-investment store for the C1 evaluation. -/
def c1Store : Storage :=
  { users := [], investments := [c1Inv], transactions := [], sales := []
    nextId := 2 }

/-- Sale request whose `saleAmount` (1200) exceeds the investment's
`currentValue` (1000). -/
def c1Req : InsertSale :=
  { investmentId := 1, investmentName := "Test ETF", saleAmount := 1200
    salePrice := 1100, allePercentage := 50, aliPercentage := 50
    saleDate := "2024-02-01", createdBy := "alle" }

/-- C1: the POST /api/sales handler never compares `saleAmount` with the
investment's `currentValue`.  On an investment worth 1000, a sale of 1200
(valid percentages summing to 100) is accepted with 201, the Sale is stored,
and the investment's `currentValue` is driven to −200 — the claimed 400
`InvalidSale` rejection does not exist in the handler. -/
theorem oversale_is_accepted :
    c1Inv.currentValue < c1Req.saleAmount ∧
    (postSales c1Store c1Req 7).1 = 201 ∧
    (postSales c1Store c1Req 7).2.sales.length = 1 ∧
    ((postSales c1Store c1Req 7).2.sales.map (fun sl => sl.saleAmount) = [1200]) ∧
    (getInvestment (postSales c1Store c1Req 7).2 1).map (fun i => i.currentValue) =
      some (-200) := by
  refine ⟨by norm_num [c1Inv, c1Req], rfl, rfl, rfl, ?_⟩
  show some ((1000 : Rat) - 1200) = some (-200)
  norm_num

/-- Investment used for the C2 counterexample: percentages 75/25. -/
def c2Inv : Investment :=
  { id := 1, name := "Test ETF", symbol := none, type := "ETF"
    initialValue := 1000, currentValue := 1000
    allePercentage := 75, aliPercentage := 25
    purchaseDate := "2024-01-01", createdAt := 0, createdBy := "alle" }

/-- One-investment store for the C2 counterexample. -/
def c2Store : Storage :=
  { users := [], investments := [c2Inv], transactions := [], sales := []
    nextId := 2 }

/-- Update supplying both percentage fields with sum 80. -/
def c2Patch : InvestmentPatch :=
  { allePercentage := some 50, aliPercentage := some 30 }

/-- C2 counterexample: PUT /api/investments/:id accepts (200) an update
that sets the percentages to 50/30 — sum 80, not 100 — and stores it; the
claimed re-validation (400 rejection) does not happen. -/
theorem update_breaks_percentage_invariant :
    (putInvestment c2Store 1 c2Patch none "2024-03-01" 5).1 = 200 ∧
    (getInvestment (putInvestment c2Store 1 c2Patch none "2024-03-01" 5).2 1).map
      (fun i => i.allePercentage + i.aliPercentage) = some 80 :=
  ⟨rfl, rfl⟩

/-- C2 amended: the percentage-sum invariant is enforced at creation only —
POST /api/investments succeeds only when the request's percentages sum to
exactly 100, while PUT /api/investments/:id performs no percentage-sum
validation at all: every update passing the per-field schema bounds is
accepted with 200 and the merged record is stored verbatim, whatever the
resulting pair sums to. -/
theorem percentage_sum_checked_at_creation_only :
    (∀ (s : Storage) (req : InsertInvestment) (now : Nat),
        (postInvestments s req now).1 = 201 →
        req.allePercentage + req.aliPercentage = 100) ∧
    (∀ (s : Storage) (id : Nat) (patch : InvestmentPatch) (ub : Option String)
        (today : String) (now : Nat) (upd : Investment) (s1 : Storage),
        validPatch patch = true →
        updateInvestment s id patch = some (upd, s1) →
        (putInvestment s id patch ub today now).1 = 200 ∧
        getInvestment (putInvestment s id patch ub today now).2 id = some upd) := by
  constructor
  · intro s req now h
    by_cases hv : validInsertInvestment req = true
    · by_cases hsum : req.allePercentage + req.aliPercentage = 100
      · exact hsum
      · simp [postInvestments, hv, hsum] at h
    · have hv' : validInsertInvestment req = false := by simpa using hv
      simp [postInvestments, hv'] at h
  · intro s id patch ub today now upd s1 hv hupd
    unfold updateInvestment at hupd
    cases hfind : s.investments.find? (fun v => v.id == id) with
    | none => rw [hfind] at hupd; simp at hupd
    | some existing =>
      rw [hfind] at hupd
      simp only [Option.some.injEq, Prod.mk.injEq] at hupd
      obtain ⟨hupd1, hupd2⟩ := hupd
      subst hupd1
      subst hupd2
      have hid : ((applyPatch existing patch).id == id) = true := by
        simpa [applyPatch] using List.find?_some hfind
      constructor
      · simp [putInvestment, hv, updateInvestment, hfind, createTransaction]
      · simp only [putInvestment, hv, Bool.not_true, Bool.false_eq_true,
          if_false, updateInvestment, hfind, createTransaction, getInvestment]
        exact find?_map_update hfind hid

/-- C2 amended, witnessed at a concrete input: the investment 75/25 exists,
the patch 50/30 passes the field bounds, and the update is accepted and
stored. -/
theorem percentage_sum_checked_at_creation_only_witness :
    (putInvestment c2Store 1 c2Patch none "2024-03-01" 5).1 = 200 ∧
    getInvestment (putInvestment c2Store 1 c2Patch none "2024-03-01" 5).2 1 =
      some (applyPatch c2Inv c2Patch) :=
  (percentage_sum_checked_at_creation_only.2 c2Store 1 c2Patch none "2024-03-01" 5
    (applyPatch c2Inv c2Patch)
    { c2Store with
      investments := c2Store.investments.map
        (fun v => if v.id == 1 then applyPatch c2Inv c2Patch else v) }
    rfl rfl)

/-- C8: on the seeded store, login as the viewer `ali` with no password
succeeds (200 with the user); login as the admin `alle` succeeds exactly on
the stored password `admin123` and fails with 401 when the password is
missing or different; an unknown (non-empty) username fails with 401. -/
theorem login_role_behaviour :
    loginRoute seedStorage (some "ali") none = (200, some aliUser) ∧
    loginRoute seedStorage (some "alle") (some "admin123") = (200, some alleUser) ∧
    loginRoute seedStorage (some "alle") none = (401, none) ∧
    (∀ p : String, p ≠ "admin123" →
      loginRoute seedStorage (some "alle") (some p) = (401, none)) ∧
    (∀ u : String, u ≠ "" → u ≠ "alle" → u ≠ "ali" →
      ∀ pw : Option String, loginRoute seedStorage (some u) pw = (401, none)) := by
  refine ⟨rfl, rfl, rfl, ?_, ?_⟩
  · intro p hp
    by_cases h0 : p = ""
    · subst h0; rfl
    · simp [loginRoute, authenticateUser, getUserByUsername, seedStorage_users_eq,
        alleUser, aliUser, jsTruthy, h0, hp, Ne.symm hp]
  · intro u h0 h1 h2 pw
    simp [loginRoute, authenticateUser, getUserByUsername, seedStorage_users_eq,
      alleUser, aliUser, jsTruthy, h0, Ne.symm h1, Ne.symm h2]

/-- C8 witness: wrong admin password `wrong` and unknown username `bob` both
yield 401. -/
theorem login_role_behaviour_witness :
    loginRoute seedStorage (some "alle") (some "wrong") = (401, none) ∧
    loginRoute seedStorage (some "bob") none = (401, none) :=
  ⟨login_role_behaviour.2.2.2.1 "wrong" (by decide),
   login_role_behaviour.2.2.2.2 "bob" (by decide) (by decide) (by decide) none⟩

/-- C10: GET /api/users returns the stored user records verbatim — including
the seeded admin's plaintext password `admin123` — to any caller (the route
takes no credentials), and a successful login responds with the full stored
user record, password included. -/
theorem users_and_login_expose_password :
    (getUsersRoute seedStorage).1 = 200 ∧
    (getUsersRoute seedStorage).2 = [alleUser, aliUser] ∧
    alleUser.password = some "admin123" ∧
    (loginRoute seedStorage (some "alle") (some "admin123")).2.map
      (fun u => u.password) = some (some "admin123") :=
  ⟨rfl, rfl, rfl, rfl⟩

/-- Demo investment shared by concrete witness instantiations. -/
def demoInv : Investment :=
  { id := 1, name := "Demo ETF", symbol := none, type := "ETF"
    initialValue := 1000, currentValue := 1000
    allePercentage := 60, aliPercentage := 40
    purchaseDate := "2024-01-01", createdAt := 0, createdBy := "alle" }

/-- Demo one-investment store shared by concrete witness instantiations. -/
def demoStore : Storage :=
  { users := [], investments := [demoInv], transactions := [], sales := []
    nextId := 2 }

/-- Demo valid investment-creation request (percentages 60/40). -/
def demoInsert : InsertInvestment :=
  { name := "Demo ETF", symbol := none, type := "ETF"
    initialValue := 1000, currentValue := 1000
    allePercentage := 60, aliPercentage := 40
    purchaseDate := "2024-01-01", createdBy := "alle" }

/-- Demo valid sale request (amount 400, percentages 50/50). -/
def demoSale : InsertSale :=
  { investmentId := 1, investmentName := "Demo ETF", saleAmount := 400
    salePrice := 450, allePercentage := 50, aliPercentage := 50
    saleDate := "2024-02-01", createdBy := "alle" }

/-- Demo patch touching only `currentValue`. -/
def demoPatch : InvestmentPatch :=
  { currentValue := some 1100 }

/-- Demo investment-creation request whose percentages sum to 90. -/
def demoBadInsert : InsertInvestment :=
  { demoInsert with allePercentage := 60, aliPercentage := 30 }

/-- Demo sale request whose percentages sum to 90. -/
def demoBadSale : InsertSale :=
  { demoSale with allePercentage := 60, aliPercentage := 30 }

/-- C4: both creation endpoints reject a percentage sum different from 100
with a 400 and an unchanged store, and accept any schema-valid request whose
integer percentages (each within [0, 100]) sum to exactly 100 — the
investment creation then returns 201, the sale creation 201 (or 404 when the
referenced investment does not exist, which is not a percentage rejection). -/
theorem percentage_gate_rejects_and_accepts :
    (∀ (s : Storage) (req : InsertInvestment) (now : Nat),
        req.allePercentage + req.aliPercentage ≠ 100 →
        postInvestments s req now = (400, s)) ∧
    (∀ (s : Storage) (req : InsertSale) (now : Nat),
        req.allePercentage + req.aliPercentage ≠ 100 →
        postSales s req now = (400, s)) ∧
    (∀ (s : Storage) (req : InsertInvestment) (now : Nat),
        validInsertInvestment req = true →
        req.allePercentage + req.aliPercentage = 100 →
        (postInvestments s req now).1 = 201) ∧
    (∀ (s : Storage) (req : InsertSale) (now : Nat),
        validInsertSale req = true →
        req.allePercentage + req.aliPercentage = 100 →
        (postSales s req now).1 = 201 ∨ (postSales s req now).1 = 404) := by
  refine ⟨?_, ?_, ?_, ?_⟩
  · intro s req now hsum
    cases hv : validInsertInvestment req with
    | false => simp [postInvestments, hv]
    | true => simp [postInvestments, hv, hsum]
  · intro s req now hsum
    cases hv : validInsertSale req with
    | false => simp [postSales, hv]
    | true => simp [postSales, hv, hsum]
  · intro s req now hv hsum
    simp [postInvestments, hv, hsum]
  · intro s req now hv hsum
    cases hfind : getInvestment s req.investmentId with
    | none => right; simp [postSales, hv, hsum, hfind]
    | some inv => left; simp [postSales, hv, hsum, hfind]

/-- C4 witness: a 60/30 request is rejected with 400 on both endpoints and
the store is unchanged; the 60/40 investment request and the 50/50 sale
request are accepted. -/
theorem percentage_gate_rejects_and_accepts_witness :
    postInvestments demoStore demoBadInsert 3 = (400, demoStore) ∧
    postSales demoStore demoBadSale 3 = (400, demoStore) ∧
    (postInvestments demoStore demoInsert 3).1 = 201 ∧
    ((postSales demoStore demoSale 3).1 = 201 ∨
      (postSales demoStore demoSale 3).1 = 404) :=
  ⟨percentage_gate_rejects_and_accepts.1 demoStore demoBadInsert 3 (by decide),
   percentage_gate_rejects_and_accepts.2.1 demoStore demoBadSale 3 (by decide),
   percentage_gate_rejects_and_accepts.2.2.1 demoStore demoInsert 3 rfl (by decide),
   percentage_gate_rejects_and_accepts.2.2.2 demoStore demoSale 3 rfl (by decide)⟩

/-- C5: every successful mutating operation appends exactly one transaction
to the audit log, with the specified action, amount and date: `Acquisto`
with the initial value and purchase date on create; `Modifica` with the
updated current value, dated today, on update; `Eliminazione` with amount 0,
dated today, on delete; `Vendita` with the sale amount and sale date on
sale. -/
theorem every_mutation_appends_one_transaction :
    (∀ (s : Storage) (req : InsertInvestment) (now : Nat),
        validInsertInvestment req = true →
        req.allePercentage + req.aliPercentage = 100 →
        (postInvestments s req now).1 = 201 ∧
        (postInvestments s req now).2.transactions = s.transactions ++
          [{ id := s.nextId + 1, action := "Acquisto", investmentId := some s.nextId
             investmentName := req.name, amount := req.initialValue
             date := req.purchaseDate, userId := req.createdBy, createdAt := now }]) ∧
    (∀ (s : Storage) (id : Nat) (patch : InvestmentPatch) (ub : Option String)
        (today : String) (now : Nat) (upd : Investment) (s1 : Storage),
        validPatch patch = true →
        updateInvestment s id patch = some (upd, s1) →
        (putInvestment s id patch ub today now).1 = 200 ∧
        (putInvestment s id patch ub today now).2.transactions = s.transactions ++
          [{ id := s.nextId, action := "Modifica", investmentId := some upd.id
             investmentName := upd.name, amount := upd.currentValue
             date := today, userId := jsOr ub upd.createdBy, createdAt := now }]) ∧
    (∀ (s : Storage) (id : Nat) (db : Option String) (today : String) (now : Nat)
        (inv : Investment),
        getInvestment s id = some inv →
        (deleteInvestmentRoute s id db today now).1 = 200 ∧
        (deleteInvestmentRoute s id db today now).2.transactions = s.transactions ++
          [{ id := s.nextId, action := "Eliminazione", investmentId := some id
             investmentName := inv.name, amount := 0
             date := today, userId := jsOr db inv.createdBy, createdAt := now }]) ∧
    (∀ (s : Storage) (req : InsertSale) (now : Nat) (inv : Investment),
        validInsertSale req = true →
        req.allePercentage + req.aliPercentage = 100 →
        getInvestment s req.investmentId = some inv →
        (postSales s req now).1 = 201 ∧
        (postSales s req now).2.transactions = s.transactions ++
          [{ id := s.nextId + 1, action := "Vendita"
             investmentId := some req.investmentId
             investmentName := inv.name, amount := req.saleAmount
             date := req.saleDate, userId := req.createdBy, createdAt := now }]) := by
  refine ⟨?_, ?_, ?_, ?_⟩
  · intro s req now hv hsum
    constructor
    · simp [postInvestments, hv, hsum]
    · simp [postInvestments, hv, hsum, createInvestment, createTransaction]
  · intro s id patch ub today now upd s1 hv hupd
    unfold updateInvestment at hupd
    cases hfind : s.investments.find? (fun v => v.id == id) with
    | none => rw [hfind] at hupd; simp at hupd
    | some existing =>
      rw [hfind] at hupd
      simp only [Option.some.injEq, Prod.mk.injEq] at hupd
      obtain ⟨hupd1, hupd2⟩ := hupd
      subst hupd1
      subst hupd2
      constructor
      · simp [putInvestment, hv, updateInvestment, hfind, createTransaction]
      · simp [putInvestment, hv, updateInvestment, hfind, createTransaction]
  · intro s id db today now inv hfind
    unfold getInvestment at hfind
    have hany : s.investments.any (fun v => v.id == id) = true := any_of_find? hfind
    constructor
    · simp [deleteInvestmentRoute, getInvestment, hfind, deleteInvestment, hany,
        createTransaction]
    · simp [deleteInvestmentRoute, getInvestment, hfind, deleteInvestment, hany,
        createTransaction]
  · intro s req now inv hv hsum hfind
    unfold getInvestment at hfind
    constructor
    · simp [postSales, hv, hsum, getInvestment, hfind]
    · simp [postSales, hv, hsum, getInvestment, hfind, createSale,
        updateInvestment, createTransaction]

/-- C5 witness: each of the four mutating operations run on the demo store
appends its specified transaction. -/
theorem every_mutation_appends_one_transaction_witness :
    ((postInvestments demoStore demoInsert 3).1 = 201 ∧
      (postInvestments demoStore demoInsert 3).2.transactions =
        demoStore.transactions ++
          [{ id := 3, action := "Acquisto", investmentId := some 2
             investmentName := demoInsert.name, amount := demoInsert.initialValue
             date := demoInsert.purchaseDate, userId := demoInsert.createdBy
             createdAt := 3 }]) ∧
    ((putInvestment demoStore 1 demoPatch none "2024-03-01" 4).1 = 200) ∧
    ((deleteInvestmentRoute demoStore 1 none "2024-03-01" 5).1 = 200) ∧
    ((postSales demoStore demoSale 6).1 = 201) := by
  refine ⟨?_, ?_, ?_, ?_⟩
  · exact (every_mutation_appends_one_transaction.1 demoStore demoInsert 3
      rfl (by decide))
  · exact (every_mutation_appends_one_transaction.2.1 demoStore 1 demoPatch none
      "2024-03-01" 4 (applyPatch demoInv demoPatch)
      { demoStore with
        investments := demoStore.investments.map
          (fun v => if v.id == 1 then applyPatch demoInv demoPatch else v) }
      rfl rfl).1
  · exact (every_mutation_appends_one_transaction.2.2.1 demoStore 1 none
      "2024-03-01" 5 demoInv rfl).1
  · exact (every_mutation_appends_one_transaction.2.2.2 demoStore demoSale 6
      demoInv rfl (by decide) rfl).1

/-- C6: a successful sale never deletes or replaces the referenced
investment: afterwards the lookup under the same id returns the record that
differs from the previous one exactly in `currentValue` (reduced by the sale
amount); name, percentages and every other field are unchanged. -/
theorem sale_preserves_investment_fields :
    ∀ (s : Storage) (req : InsertSale) (now : Nat) (inv : Investment),
      validInsertSale req = true →
      req.allePercentage + req.aliPercentage = 100 →
      getInvestment s req.investmentId = some inv →
      getInvestment (postSales s req now).2 req.investmentId =
        some { inv with currentValue := inv.currentValue - req.saleAmount } := by
  intro s req now inv hv hsum hfind
  unfold getInvestment at hfind
  have hid : (({ inv with
      currentValue := inv.currentValue - req.saleAmount } : Investment).id ==
        req.investmentId) = true := by
    simpa using List.find?_some hfind
  have happ : applyPatch inv { currentValue := some (inv.currentValue - req.saleAmount) } =
      { inv with currentValue := inv.currentValue - req.saleAmount } := by
    simp [applyPatch]
  simp only [postSales, hv, Bool.not_true, Bool.false_eq_true, if_false,
    hsum, ne_eq, not_true_eq_false, getInvestment, hfind, createSale,
    updateInvestment, createTransaction]
  rw [← happ]
  exact find?_map_update hfind (happ.symm ▸ hid)

/-- C6 witness: after the demo sale of 400 against the demo investment worth
1000, the investment is still stored under id 1 with only `currentValue`
changed. -/
theorem sale_preserves_investment_fields_witness :
    getInvestment (postSales demoStore demoSale 6).2 demoSale.investmentId =
      some { demoInv with currentValue := demoInv.currentValue - demoSale.saleAmount } :=
  sale_preserves_investment_fields demoStore demoSale 6 demoInv rfl (by decide) rfl

/-- C7: deleting a non-existent investment fails with 404 and leaves the
store (hence the audit log) untouched; deleting an existing one succeeds and
the synthesized `Eliminazione` transaction carries the investment's name as
snapshotted before the deletion. -/
theorem delete_notfound_or_snapshots_name :
    (∀ (s : Storage) (id : Nat) (db : Option String) (today : String) (now : Nat),
        getInvestment s id = none →
        deleteInvestmentRoute s id db today now = (404, s)) ∧
    (∀ (s : Storage) (id : Nat) (db : Option String) (today : String) (now : Nat)
        (inv : Investment),
        getInvestment s id = some inv →
        (deleteInvestmentRoute s id db today now).1 = 200 ∧
        ((deleteInvestmentRoute s id db today now).2.transactions).map
            (fun t => (t.action, t.investmentName)) =
          (s.transactions.map (fun t => (t.action, t.investmentName))) ++
            [("Eliminazione", inv.name)]) := by
  constructor
  · intro s id db today now hnone
    simp [deleteInvestmentRoute, hnone]
  · intro s id db today now inv hfind
    have hany : s.investments.any (fun v => v.id == id) = true :=
      any_of_find? (by simpa [getInvestment] using hfind)
    constructor
    · simp [deleteInvestmentRoute, hfind, deleteInvestment, hany, createTransaction]
    · simp [deleteInvestmentRoute, hfind, deleteInvestment, hany, createTransaction]

/-- C7 witness: deleting the absent id 9 from the demo store returns 404 and
leaves the store unchanged; deleting the existing id 1 returns 200 and logs
an `Eliminazione` transaction named after the deleted investment. -/
theorem delete_notfound_or_snapshots_name_witness :
    deleteInvestmentRoute demoStore 9 none "2024-03-01" 5 = (404, demoStore) ∧
    ((deleteInvestmentRoute demoStore 1 none "2024-03-01" 5).1 = 200 ∧
      ((deleteInvestmentRoute demoStore 1 none "2024-03-01" 5).2.transactions).map
          (fun t => (t.action, t.investmentName)) =
        (demoStore.transactions.map (fun t => (t.action, t.investmentName))) ++
          [("Eliminazione", demoInv.name)]) :=
  ⟨delete_notfound_or_snapshots_name.1 demoStore 9 none "2024-03-01" 5 rfl,
   delete_notfound_or_snapshots_name.2 demoStore 1 none "2024-03-01" 5 demoInv rfl⟩

/-- C9: for every store and every date-parsing function (standing for
`new Date(·).getTime()`), `getAllTransactions` returns a permutation of the
stored transactions that is pairwise descending in parsed `date`, and
`getAllSales` a permutation of the stored sales pairwise descending in
parsed `saleDate`. -/
theorem listings_sorted_desc :
    ∀ (parse : String → Int) (s : Storage),
      ((getAllTransactions parse s).Perm s.transactions ∧
        List.Pairwise (fun a b => parse b.date ≤ parse a.date)
          (getAllTransactions parse s)) ∧
      ((getAllSales parse s).Perm s.sales ∧
        List.Pairwise (fun a b => parse b.saleDate ≤ parse a.saleDate)
          (getAllSales parse s)) := by
  intro parse s
  refine ⟨⟨List.mergeSort_perm _ _, ?_⟩, ⟨List.mergeSort_perm _ _, ?_⟩⟩
  · have h : List.Pairwise
        (fun a b : Transaction => decide (parse b.date ≤ parse a.date) = true)
        (s.transactions.mergeSort
          (fun a b : Transaction => decide (parse b.date ≤ parse a.date))) :=
      List.sorted_mergeSort
        (fun a b c h1 h2 => by
          simp only [decide_eq_true_eq] at h1 h2 ⊢
          exact le_trans h2 h1)
        (fun a b => by
          simpa using le_total (parse b.date) (parse a.date))
        s.transactions
    exact h.imp (fun hab => by simpa using hab)
  · have h : List.Pairwise
        (fun a b : Sale => decide (parse b.saleDate ≤ parse a.saleDate) = true)
        (s.sales.mergeSort
          (fun a b : Sale => decide (parse b.saleDate ≤ parse a.saleDate))) :=
      List.sorted_mergeSort
        (fun a b c h1 h2 => by
          simp only [decide_eq_true_eq] at h1 h2 ⊢
          exact le_trans h2 h1)
        (fun a b => by
          simpa using le_total (parse b.saleDate) (parse a.saleDate))
        s.sales
    exact h.imp (fun hab => by simpa using hab)

end V2App
